import Mathlib

/-!
Shallow embedding of the FS26-DAQ firmware (gps.c, FS26-DAQ.c, lr1121_tx.c).
C floats are modelled as exact rationals; C strings as Lean strings; the
byte-level packet layout as lists of byte values.  Shared-state mutation by
the NMEA decoders is modelled as a list of write events, each tagged with
whether it happens inside the spin-lock critical section, so that the final
state is the fold of the events and the lock discipline stays observable.
-/

namespace FS26

/-! ### C standard library fragments: atof, atoi, strtol(base 16) -/

def digitVal (c : Char) : Nat := c.toNat - 48

def natOfDigits (l : List Char) : Nat :=
  l.foldl (fun a c => a * 10 + digitVal c) 0

def atofCore (cs : List Char) : ℚ :=
  let ip := cs.takeWhile Char.isDigit
  let rest := cs.drop ip.length
  let fp :=
    match rest with
    | '.' :: r => r.takeWhile Char.isDigit
    | _ => []
  mkRat (natOfDigits ip * 10 ^ fp.length + natOfDigits fp) (10 ^ fp.length)

def atof (s : String) : ℚ :=
  match s.toList.dropWhile (fun c => c = ' ') with
  | '-' :: r => -(atofCore r)
  | '+' :: r => atofCore r
  | cs => atofCore cs

def atoi (s : String) : Int :=
  match s.toList.dropWhile (fun c => c = ' ') with
  | '-' :: r => -(natOfDigits (r.takeWhile Char.isDigit) : Int)
  | '+' :: r => (natOfDigits (r.takeWhile Char.isDigit) : Int)
  | cs => (natOfDigits (cs.takeWhile Char.isDigit) : Int)

def isHexDigitC (c : Char) : Bool :=
  c.isDigit || ('a' ≤ c && c ≤ 'f') || ('A' ≤ c && c ≤ 'F')

def hexDigitVal (c : Char) : Nat :=
  if c.isDigit then c.toNat - 48
  else if 'a' ≤ c && c ≤ 'f' then c.toNat - 87
  else c.toNat - 55

def natOfHexDigits (l : List Char) : Nat :=
  l.foldl (fun a c => a * 16 + hexDigitVal c) 0

/-- The hex-digit run consumed by `strtol(_, _, 16)`, after an optional
`0x`/`0X` marker (the marker is consumed only when a hex digit follows). -/
def hexDigitRun (cs : List Char) : List Char :=
  match cs with
  | '0' :: 'x' :: r =>
      if isHexDigitC (r.headD '*') then r.takeWhile (fun c => isHexDigitC c)
      else ['0']
  | '0' :: 'X' :: r =>
      if isHexDigitC (r.headD '*') then r.takeWhile (fun c => isHexDigitC c)
      else ['0']
  | r => r.takeWhile (fun c => isHexDigitC c)

/-- `LONG_MAX` for the RP2040's 32-bit `long`. -/
def LONG_MAX : Int := 2147483647

/-- `LONG_MIN` for the RP2040's 32-bit `long`. -/
def LONG_MIN : Int := -2147483648

/-- A nonnegative magnitude clamped the way `strtol` clamps an
out-of-range result: to `LONG_MAX` for a positive value, to `LONG_MIN`
for a negated one. -/
def strtolClampPos (v : Nat) : Int :=
  if (v : Int) ≤ LONG_MAX then (v : Int) else LONG_MAX

def strtolClampNeg (v : Nat) : Int :=
  if (v : Int) ≤ -LONG_MIN then -(v : Int) else LONG_MIN

/-- `strtol(cs, NULL, 16)`: skip spaces, optional sign, hex digits; a value
outside the 32-bit `long` range is clamped to `LONG_MAX`/`LONG_MIN`. -/
def strtolHexVal (cs : List Char) : Int :=
  match cs.dropWhile (fun c => c = ' ' || c = '\t') with
  | '-' :: r => strtolClampNeg (natOfHexDigits (hexDigitRun r))
  | '+' :: r => strtolClampPos (natOfHexDigits (hexDigitRun r))
  | r => strtolClampPos (natOfHexDigits (hexDigitRun r))

/-! ### The shared fix state (gps.h: gps_data_t), zero-initialised -/

structure GpsData where
  fix_valid : Bool := false
  raw_latitude : ℚ := 0
  raw_longitude : ℚ := 0
  altitude : ℚ := 0
  speed_kph : ℚ := 0
  course : ℚ := 0
  hdop : ℚ := 0
  satellites : Int := 0
  display_latitude : ℚ := 0
  display_longitude : ℚ := 0
  is_moving : Bool := false
deriving DecidableEq, Repr

/-- `static gps_data_t gps_data = \x7b0\x7d;` -/
def initGpsData : GpsData := {}

/-! ### gps.c helpers -/

/-- C truncation `(int)q` (toward zero). -/
def ratTrunc (q : ℚ) : Int := if 0 ≤ q then ⌊q⌋ else -⌊-q⌋

/-- gps.c `nmea_to_decimal`. -/
def nmea_to_decimal (nmea_coord : String) (direction : Char) : ℚ :=
  if nmea_coord.length = 0 then 0
  else
    let coord := atof nmea_coord
    let degrees : Int := ratTrunc (coord / 100)
    let minutes : ℚ := coord - (degrees : ℚ) * 100
    let decimal : ℚ := (degrees : ℚ) + minutes / 60
    if direction = 'S' || direction = 'W' then -decimal else decimal

/-- Split a character list at its LAST asterisk (C `strrchr(s, '*')`):
returns the part strictly before it and the part strictly after it. -/
def lastStarSplit : List Char → Option (List Char × List Char)
  | [] => none
  | c :: cs =>
    match lastStarSplit cs with
    | some (pre, post) => some (c :: pre, post)
    | none => if c = '*' then some ([], cs) else none

def xorBytes (l : List Char) : Nat := l.foldl (fun a c => a ^^^ c.toNat) 0

/-- gps.c `verify_nmea_checksum`. -/
def verify_nmea_checksum (s : String) : Bool :=
  match s.toList with
  | [] => false
  | c :: rest =>
    if c ≠ '$' then false
    else
      match lastStarSplit rest with
      | none => false
      | some (pre, post) =>
        xorBytes pre == ((strtolHexVal post) % 256).toNat

/-- The claim's checksum contract taken at its word: the provided checksum is
"the base-16 value of the hex digits following the asterisk", with no
truncation of that value to the width of a C `uint8_t`. -/
def claimChecksumOk (s : String) : Bool :=
  match s.toList with
  | [] => false
  | c :: rest =>
    if c ≠ '$' then false
    else
      match lastStarSplit rest with
      | none => false
      | some (pre, post) =>
        xorBytes pre == natOfHexDigits (post.takeWhile (fun c => isHexDigitC c))

/-! ### Decoder write events

Each decoder computes values and writes them to the shared `gps_data`; the
`locked` flag records whether the write happens inside the
`spin_lock_blocking` / `spin_unlock` critical section. -/

inductive GField
  | fixValid | rawLat | rawLon | altitudeF | speedKphF | courseF | hdopF
  | satellitesF | displayLat | displayLon | isMovingF
deriving DecidableEq, Repr

inductive GVal
  | b (v : Bool)
  | q (v : ℚ)
  | i (v : Int)
deriving DecidableEq, Repr

structure WEvent where
  fld : GField
  val : GVal
  locked : Bool
deriving DecidableEq, Repr

def applyEvent (g : GpsData) (e : WEvent) : GpsData :=
  match e.fld, e.val with
  | .fixValid, .b v => { g with fix_valid := v }
  | .rawLat, .q v => { g with raw_latitude := v }
  | .rawLon, .q v => { g with raw_longitude := v }
  | .altitudeF, .q v => { g with altitude := v }
  | .speedKphF, .q v => { g with speed_kph := v }
  | .courseF, .q v => { g with course := v }
  | .hdopF, .q v => { g with hdop := v }
  | .satellitesF, .i v => { g with satellites := v }
  | .displayLat, .q v => { g with display_latitude := v }
  | .displayLon, .q v => { g with display_longitude := v }
  | .isMovingF, .b v => { g with is_moving := v }
  | _, _ => g

def applyEvents (g : GpsData) (es : List WEvent) : GpsData := es.foldl applyEvent g

/-! ### parse_gpgga (gps.c)

`fs` is the list of comma-separated fields after the sentence tag; C field
number `i` (starting at 1 after the tag) is `fs.getD (i-1) ""`.  `strncpy`
into the 16/8-byte local buffers truncates to 15/7 characters. -/

def gpggaLatStr (fs : List String) : String := (fs.getD 1 "").take 15
def gpggaLatDir (fs : List String) : Char := (fs.getD 2 "").toList.headD (Char.ofNat 0)
def gpggaLonStr (fs : List String) : String := (fs.getD 3 "").take 15
def gpggaLonDir (fs : List String) : Char := (fs.getD 4 "").toList.headD (Char.ofNat 0)
def gpggaSatStr (fs : List String) : String := (fs.getD 6 "").take 7
def gpggaAltStr (fs : List String) : String := (fs.getD 8 "").take 15

def gpggaSats (fs : List String) : Int :=
  if 0 < (gpggaSatStr fs).length then atoi (gpggaSatStr fs) else 0

def gpggaValid (fs : List String) : Bool :=
  decide (0 < (gpggaLatStr fs).length) && decide (0 < gpggaSats fs)

/-- The write events of `parse_gpgga`: `gps_data.hdop` is assigned directly
inside the tokenising loop (case 8), before `spin_lock_blocking`; the
remaining fields are committed under the lock. -/
def gpggaEvents (fs : List String) : List WEvent :=
  (if 8 ≤ fs.length then [⟨.hdopF, .q (atof (fs.getD 7 "")), false⟩] else []) ++
  ⟨.satellitesF, .i (gpggaSats fs), true⟩ ::
  (if gpggaValid fs then
      [⟨.fixValid, .b true, true⟩,
       ⟨.rawLat, .q (nmea_to_decimal (gpggaLatStr fs) (gpggaLatDir fs)), true⟩,
       ⟨.rawLon, .q (nmea_to_decimal (gpggaLonStr fs) (gpggaLonDir fs)), true⟩,
       ⟨.altitudeF, .q (atof (gpggaAltStr fs)), true⟩]
    else [⟨.fixValid, .b false, true⟩])

def parse_gpgga (g : GpsData) (fs : List String) : GpsData :=
  applyEvents g (gpggaEvents fs)

/-! ### parse_gprmc (gps.c) -/

def gprmcStatus (fs : List String) : Char :=
  match fs.get? 1 with
  | some t => t.toList.headD (Char.ofNat 0)
  | none => 'V'

def gprmcSpeedStr (fs : List String) : String := (fs.getD 6 "").take 15
def gprmcCourseStr (fs : List String) : String := (fs.getD 7 "").take 15

def gprmcSpeed (fs : List String) : ℚ :=
  if gprmcStatus fs = 'A' then
    if 0 < (gprmcSpeedStr fs).length then atof (gprmcSpeedStr fs) * (1852 / 1000) else 0
  else 0

def gprmcCourse (fs : List String) : ℚ :=
  if gprmcStatus fs = 'A' then
    if 0 < (gprmcCourseStr fs).length then atof (gprmcCourseStr fs) else 0
  else 0

def gprmcEvents (fs : List String) : List WEvent :=
  [⟨.speedKphF, .q (gprmcSpeed fs), true⟩, ⟨.courseF, .q (gprmcCourse fs), true⟩]

def parse_gprmc (g : GpsData) (fs : List String) : GpsData :=
  applyEvents g (gprmcEvents fs)

/-! ### apply_filtering_and_print (gps.c) -/

def MAX_HDOP_THRESHOLD : ℚ := 3
def MIN_SPEED_THRESHOLD : ℚ := 3

def apply_filtering_and_print (total_readings : Nat) (g : GpsData) : Nat × GpsData :=
  let tr := total_readings + 1
  if g.fix_valid = false then (tr, g)
  else if MAX_HDOP_THRESHOLD < g.hdop then (tr, g)
  else if MIN_SPEED_THRESHOLD ≤ g.speed_kph then
    (tr, { g with is_moving := true,
                  display_latitude := g.raw_latitude,
                  display_longitude := g.raw_longitude })
  else if g.display_latitude = 0 then
    (tr, { g with is_moving := false,
                  display_latitude := g.raw_latitude,
                  display_longitude := g.raw_longitude })
  else (tr, { g with is_moving := false })

/-! ### Per-line dispatch (gps.c process_gps_data, one complete line) -/

def sentenceFields (s : String) : List String := (s.splitOn ",").drop 1

def processLine (st : Nat × GpsData) (s : String) : Nat × GpsData :=
  if verify_nmea_checksum s then
    if s.startsWith "$GPGGA" || s.startsWith "$GNGGA" then
      (st.1, parse_gpgga st.2 (sentenceFields s))
    else if s.startsWith "$GPRMC" || s.startsWith "$GNRMC" then
      apply_filtering_and_print st.1 (parse_gprmc st.2 (sentenceFields s))
    else st
  else st

/-! ### Fix sequences for the anti-drift latch

One `FixInput` stands for a valid quality+velocity sentence pair: the state
fields a valid GPGGA commit and a GPRMC commit set before the filter runs. -/

structure FixInput where
  lat : ℚ
  lon : ℚ
  speed : ℚ
  hdop : ℚ
deriving DecidableEq, Repr

def fixStep (st : Nat × GpsData) (f : FixInput) : Nat × GpsData :=
  apply_filtering_and_print st.1
    { st.2 with fix_valid := true, hdop := f.hdop,
                raw_latitude := f.lat, raw_longitude := f.lon,
                speed_kph := f.speed }

def runFixes (fs : List FixInput) : Nat × GpsData :=
  fs.foldl fixStep (0, initGpsData)

/-! ### Telemetry packet (FS26-DAQ.c core1_main) -/

structure gps_telemetry_packet_t where
  magic : Nat
  latitude : ℚ
  longitude : ℚ
  speed_kph : ℚ
  altitude : ℚ
  tx_count : Nat
  satellites : Nat
  fix_valid : Nat
deriving DecidableEq, Repr

/-- The packet-field assignments of `core1_main`: position comes from the
raw (unfiltered) coordinates; the C casts `(uint16_t)` and `(uint8_t)`
reduce the counter and the satellite count. -/
def buildTelemetryPacket (gps : GpsData) (txCount : Nat) : gps_telemetry_packet_t :=
  { magic := 0x46533236
    latitude := gps.raw_latitude
    longitude := gps.raw_longitude
    speed_kph := gps.speed_kph
    altitude := gps.altitude
    tx_count := txCount % 2 ^ 16
    satellites := ((gps.satellites % 256).toNat)
    fix_valid := if gps.fix_valid then 1 else 0 }

/-! ### Byte layout of the packed struct (little-endian RP2040)

A 32-bit float field is represented by its 4-byte bit pattern, produced by
an arbitrary encoding function `f32`. -/

def le16 (n : Nat) : List Nat := [n % 256, n / 2 ^ 8 % 256]

def le32 (n : Nat) : List Nat :=
  [n % 256, n / 2 ^ 8 % 256, n / 2 ^ 16 % 256, n / 2 ^ 24 % 256]

def encodeTelemetryPacket (f32 : ℚ → Nat) (p : gps_telemetry_packet_t) : List Nat :=
  le32 p.magic ++ le32 (f32 p.latitude) ++ le32 (f32 p.longitude) ++
  le32 (f32 p.speed_kph) ++ le32 (f32 p.altitude) ++
  le16 p.tx_count ++ [p.satellites % 256, p.fix_valid % 256]

/-- Field-by-field re-decoding of the 24-byte packet: little-endian 32-bit
reads at byte offsets 0, 4, 8, 12 and 16, a little-endian 16-bit read at
offset 20, and single bytes at offsets 22 and 23.  Anything that is not
exactly 24 bytes long fails to decode. -/
def decodeTelemetryPacket (bs : List Nat) :
    Option (Nat × Nat × Nat × Nat × Nat × Nat × Nat × Nat) :=
  match bs with
  | [b0, b1, b2, b3, c0, c1, c2, c3, d0, d1, d2, d3,
     e0, e1, e2, e3, a0, a1, a2, a3, t0, t1, s, v] =>
      some (b0 + 2 ^ 8 * b1 + 2 ^ 16 * b2 + 2 ^ 24 * b3,
            c0 + 2 ^ 8 * c1 + 2 ^ 16 * c2 + 2 ^ 24 * c3,
            d0 + 2 ^ 8 * d1 + 2 ^ 16 * d2 + 2 ^ 24 * d3,
            e0 + 2 ^ 8 * e1 + 2 ^ 16 * e2 + 2 ^ 24 * e3,
            a0 + 2 ^ 8 * a1 + 2 ^ 16 * a2 + 2 ^ 24 * a3,
            t0 + 2 ^ 8 * t1, s, v)
  | _ => none

/-! ### lora_send (lr1121_tx.c)

The radio is an environment: whether the buffer write and the TX start
succeed, the pre-TX error word, and — indexed by the milliseconds elapsed
in the completion-wait loop — the ISR-set `tx_done_flag` and the polled IRQ
status register.  `lora_send` returns its boolean result together with the
trace of radio commands it issued. -/

inductive RCmd
  | clearErrors | clearIrqAll | setTcxoMode | sleepMs (ms : Nat)
  | setPktType | setRfFreq | setLoraModParams | setLoraPktParams
  | writeBuffer | getErrors | setTx | getIrqStatus
deriving DecidableEq, Repr

structure RadioEnv where
  writeBufferOk : Bool
  setTxOk : Bool
  preTxErrors : Nat
  txDoneFlagAt : Nat → Bool
  irqStatusAt : Nat → Nat

/-- Vendor driver constant `LR11XX_SYSTEM_IRQ_TX_DONE` (bit 2). -/
def IRQ_TX_DONE : Nat := 4

/-- The completion-wait loop of `lora_send`: check the ISR flag, poll the
status register, time out strictly after `timeout_ms = 2000` elapsed
milliseconds; each iteration sleeps 1 ms. -/
def txWaitLoop (env : RadioEnv) (elapsed : Nat) : Bool × List RCmd :=
  if env.txDoneFlagAt elapsed then (true, [RCmd.clearIrqAll])
  else if env.irqStatusAt elapsed &&& IRQ_TX_DONE ≠ 0 then
    (true, [RCmd.getIrqStatus, RCmd.clearIrqAll])
  else if 2000 < elapsed then
    (false, [RCmd.getIrqStatus, RCmd.clearErrors, RCmd.clearIrqAll])
  else
    let r := txWaitLoop env (elapsed + 1)
    (r.1, RCmd.getIrqStatus :: RCmd.sleepMs 1 :: r.2)
termination_by 2001 - elapsed
decreasing_by omega

def lora_send (env : RadioEnv) (length payloadLength : Nat) : Bool × List RCmd :=
  if payloadLength < length then (false, [])
  else
    let pre : List RCmd :=
      [RCmd.clearErrors, RCmd.clearIrqAll, RCmd.setTcxoMode, RCmd.sleepMs 5,
       RCmd.clearErrors, RCmd.setPktType, RCmd.setRfFreq,
       RCmd.setLoraModParams, RCmd.setLoraPktParams, RCmd.writeBuffer]
    if env.writeBufferOk = false then (false, pre)
    else
      let pre2 := pre ++ [RCmd.getErrors] ++
        (if env.preTxErrors ≠ 0 then [RCmd.clearErrors] else []) ++ [RCmd.setTx]
      if env.setTxOk = false then (false, pre2)
      else
        let w := txWaitLoop env 0
        (w.1, pre2 ++ w.2)

/-- The command trace of a completion wait that runs `n` further polling
iterations and then times out. -/
def timeoutTrace : Nat → List RCmd
  | 0 => [RCmd.getIrqStatus, RCmd.clearErrors, RCmd.clearIrqAll]
  | n + 1 => RCmd.getIrqStatus :: RCmd.sleepMs 1 :: timeoutTrace n

/-! ### Concrete sample data -/

/-- The fields after the tag of the checksum-valid quality sentence
`$GPGGA,123519,4807.038,N,01131.000,E,1,08,0.9,545.4,M,46.9,M,,*47`. -/
def ggaSampleFields : List String :=
  ["123519", "4807.038", "N", "01131.000", "E", "1", "08", "0.9",
   "545.4", "M", "46.9", "M", "", "*47"]

/-- A fix state left behind by an earlier decode pass. -/
def gPrevPass : GpsData :=
  { initGpsData with fix_valid := true, raw_latitude := 10, raw_longitude := 20,
                     hdop := 5, satellites := 6 }

/-- A radio whose completion interrupt never fires and whose polled status
register never shows `TX_DONE`, while SPI commands themselves succeed. -/
def envSilent : RadioEnv :=
  { writeBufferOk := true, setTxOk := true, preTxErrors := 0,
    txDoneFlagAt := fun _ => false, irqStatusAt := fun _ => 0 }

/-- A fix state whose display coordinates are already latched. -/
def gFrozenSample : GpsData :=
  { initGpsData with fix_valid := true, hdop := 1, speed_kph := 1,
                     raw_latitude := 48, raw_longitude := 11,
                     display_latitude := 5, display_longitude := 6 }

/-- A valid but poor-accuracy fix (HDOP 5) moving at 10 km/h. -/
def gPoorHdop : GpsData :=
  { initGpsData with fix_valid := true, hdop := 5, speed_kph := 10,
                     raw_latitude := 48, display_latitude := 1 }

/-- The spec's example packet content. -/
def pSample : gps_telemetry_packet_t :=
  { magic := 0x46533236, latitude := 48, longitude := 11, speed_kph := 12,
    altitude := 545, tx_count := 7, satellites := 9, fix_valid := 1 }

/-! ## Helper lemmas -/

theorem lastStarSplit_eq_none (cs : List Char) (h : '*' ∉ cs) :
    lastStarSplit cs = none := by
  induction cs with
  | nil => rfl
  | cons c cs ih =>
    simp only [List.mem_cons, not_or] at h
    have hne : ¬ c = '*' := fun hc => h.1 hc.symm
    simp [lastStarSplit, ih h.2, hne]

theorem not_mem_of_lastStarSplit_eq_none (cs : List Char)
    (h : lastStarSplit cs = none) : '*' ∉ cs := by
  induction cs with
  | nil => simp
  | cons c cs ih =>
    simp only [lastStarSplit] at h
    rcases hh : lastStarSplit cs with _ | ⟨p1, p2⟩
    · rw [hh] at h
      simp only [List.mem_cons, not_or]
      refine ⟨fun hc => ?_, ih hh⟩
      rw [if_pos hc.symm] at h
      exact Option.noConfusion h
    · rw [hh] at h
      exact Option.noConfusion h

theorem lastStarSplit_append (pre post : List Char) (h : '*' ∉ post) :
    lastStarSplit (pre ++ '*' :: post) = some (pre, post) := by
  induction pre with
  | nil => simp [lastStarSplit, lastStarSplit_eq_none post h]
  | cons a pre ih => simp [lastStarSplit, ih]

theorem lastStarSplit_some (cs pre post : List Char)
    (h : lastStarSplit cs = some (pre, post)) :
    cs = pre ++ '*' :: post ∧ '*' ∉ post := by
  induction cs generalizing pre post with
  | nil => exact Option.noConfusion h
  | cons c cs ih =>
    simp only [lastStarSplit] at h
    rcases hh : lastStarSplit cs with _ | ⟨p1, p2⟩
    · rw [hh] at h
      by_cases hc : c = '*'
      · rw [if_pos hc] at h
        injection h with h2
        injection h2 with ha hb
        subst ha
        subst hb
        subst hc
        exact ⟨rfl, not_mem_of_lastStarSplit_eq_none cs hh⟩
      · rw [if_neg hc] at h
        exact Option.noConfusion h
    · rw [hh] at h
      injection h with h2
      injection h2 with ha hb
      subst ha
      subst hb
      obtain ⟨hcs, hnp⟩ := ih p1 p2 hh
      exact ⟨by simp [hcs], hnp⟩

theorem atof_empty : atof "" = 0 := by decide

theorem eq_empty_of_length_eq_zero (s : String) (h : s.length = 0) : s = "" := by
  cases s with
  | mk data =>
    have : data.length = 0 := h
    have hd : data = [] := List.length_eq_zero.mp this
    simp [hd]

theorem verify_iff_aux (cs : List Char) :
    verify_nmea_checksum ⟨cs⟩ = true ↔
      ∃ pre post : List Char,
        cs = '$' :: (pre ++ '*' :: post) ∧ '*' ∉ post ∧
        xorBytes pre = ((strtolHexVal post) % 256).toNat := by
  cases cs with
  | nil =>
    constructor
    · intro h
      exact Bool.noConfusion h
    · rintro ⟨pre, post, h, -, -⟩
      exact List.noConfusion h
  | cons c rest =>
    by_cases hc : c = '$'
    · subst hc
      show (if ('$' : Char) ≠ '$' then false
            else match lastStarSplit rest with
              | none => false
              | some (pre, post) =>
                xorBytes pre == ((strtolHexVal post) % 256).toNat) = true ↔ _
      rw [if_neg (by simp)]
      rcases hh : lastStarSplit rest with _ | ⟨pre, post⟩
      · show false = true ↔ _
        constructor
        · intro h
          exact Bool.noConfusion h
        · rintro ⟨pre, post, hcs, hnp, -⟩
          injection hcs with h1 h2
          rw [h2, lastStarSplit_append pre post hnp] at hh
          exact Option.noConfusion hh
      · show (xorBytes pre == ((strtolHexVal post) % 256).toNat) = true ↔ _
        obtain ⟨hrest, hnp⟩ := lastStarSplit_some rest pre post hh
        constructor
        · intro h
          exact ⟨pre, post, by rw [hrest], hnp, by simpa using h⟩
        · rintro ⟨pre2, post2, hcs, hnp2, hxor⟩
          injection hcs with h1 h2
          rw [h2, lastStarSplit_append pre2 post2 hnp2] at hh
          injection hh with h3
          injection h3 with ha hb
          subst ha
          subst hb
          simpa using hxor
    · constructor
      · intro h
        have hfalse : verify_nmea_checksum ⟨c :: rest⟩ = false := by
          show (if c ≠ '$' then false
                else match lastStarSplit rest with
                  | none => false
                  | some (pre, post) =>
                    xorBytes pre == ((strtolHexVal post) % 256).toNat) = false
          rw [if_pos hc]
        rw [hfalse] at h
        exact Bool.noConfusion h
      · rintro ⟨pre, post, hcs, -, -⟩
        injection hcs with h1 h2
        exact absurd h1 hc

theorem apply_filtering_frozen (tr : Nat) (g : GpsData) (hfix : g.fix_valid = true)
    (hh : g.hdop ≤ MAX_HDOP_THRESHOLD) (hs : g.speed_kph < MIN_SPEED_THRESHOLD)
    (hd : g.display_latitude ≠ 0) :
    (apply_filtering_and_print tr g).2 = { g with is_moving := false } := by
  simp only [apply_filtering_and_print]
  rw [if_neg (by simp [hfix]), if_neg (not_lt.mpr hh), if_neg (not_le.mpr hs), if_neg hd]

theorem apply_filtering_seed (tr : Nat) (g : GpsData) (hfix : g.fix_valid = true)
    (hh : g.hdop ≤ MAX_HDOP_THRESHOLD) (hd0 : g.display_latitude = 0) :
    (apply_filtering_and_print tr g).2.display_latitude = g.raw_latitude ∧
    (apply_filtering_and_print tr g).2.display_longitude = g.raw_longitude := by
  simp only [apply_filtering_and_print]
  rw [if_neg (by simp [hfix]), if_neg (not_lt.mpr hh)]
  by_cases hs : MIN_SPEED_THRESHOLD ≤ g.speed_kph
  · rw [if_pos hs]
    exact ⟨rfl, rfl⟩
  · rw [if_neg hs, if_pos hd0]
    exact ⟨rfl, rfl⟩

theorem runFixes_frozen_aux (rest : List FixInput) :
    ∀ st : Nat × GpsData, st.2.display_latitude ≠ 0 →
    (∀ x ∈ rest, x.hdop ≤ MAX_HDOP_THRESHOLD ∧ x.speed < MIN_SPEED_THRESHOLD) →
    (rest.foldl fixStep st).2.display_latitude = st.2.display_latitude ∧
    (rest.foldl fixStep st).2.display_longitude = st.2.display_longitude := by
  induction rest with
  | nil =>
    intro st _ _
    exact ⟨rfl, rfl⟩
  | cons x rest ih =>
    intro st hd hall
    have hx := hall x (List.mem_cons_self x rest)
    have h1 : (fixStep st x).2.display_latitude = st.2.display_latitude ∧
        (fixStep st x).2.display_longitude = st.2.display_longitude := by
      have hfroz := apply_filtering_frozen st.1
        { st.2 with fix_valid := true, hdop := x.hdop, raw_latitude := x.lat,
                    raw_longitude := x.lon, speed_kph := x.speed }
        rfl hx.1 hx.2 hd
      unfold fixStep
      rw [hfroz]
      exact ⟨rfl, rfl⟩
    have h2 := ih (fixStep st x) (by rw [h1.1]; exact hd)
      (fun y hy => hall y (List.mem_cons_of_mem _ hy))
    rw [List.foldl_cons]
    exact ⟨h2.1.trans h1.1, h2.2.trans h1.2⟩

/-! ## Claim theorems -/

/-- C3 (counterexample): the claim's reading of the provided checksum — "the
base-16 value of the hex digits following the asterisk" — differs from the
code on `"$*100"`: the payload between the delimiters is empty (XOR 0), the
hex digits read 0x100 = 256, yet `verify_nmea_checksum` accepts the sentence
because the C cast `(uint8_t)strtol(..)` truncates 256 to 0. -/
theorem checksum_truncation_cex :
    verify_nmea_checksum "$*100" = true ∧ claimChecksumOk "$*100" = false := by
  decide

/-- C3 (amended): a sentence is accepted iff it starts with `$`, contains a
later `*`, and the XOR of the bytes strictly between `$` and the last `*`
equals the `strtol`-parsed base-16 value of the characters after the `*` —
clamped to the 32-bit `long` range on overflow, then truncated to eight
bits by the C `uint8_t` cast; rejected sentences never reach the
decoders. -/
theorem checksum_contract_amended :
    (∀ s : String, verify_nmea_checksum s = true ↔
      ∃ pre post : List Char,
        s.toList = '$' :: (pre ++ '*' :: post) ∧ '*' ∉ post ∧
        xorBytes pre = ((strtolHexVal post) % 256).toNat) ∧
    (∀ (st : Nat × GpsData) (s : String),
      verify_nmea_checksum s = false → processLine st s = st) := by
  constructor
  · intro s
    have h := verify_iff_aux s.toList
    rwa [show (⟨s.toList⟩ : String) = s from by cases s; rfl] at h
  · intro st s h
    simp [processLine, h]

/-- C3 (witness): the reference sentence with a correct checksum is accepted
and satisfies the amended characterisation; a sentence with a corrupted
checksum suffix is rejected and leaves the state untouched, as is one whose
nine-hex-digit suffix overflows `strtol` (clamped to `LONG_MAX`, whose low
byte 0xFF differs from the computed XOR 0). -/
theorem checksum_contract_amended_witness :
    (verify_nmea_checksum "$GPGGA,123519,4807.038,N,01131.000,E,1,08,0.9,545.4,M,46.9,M,,*47" = true ↔
      ∃ pre post : List Char,
        "$GPGGA,123519,4807.038,N,01131.000,E,1,08,0.9,545.4,M,46.9,M,,*47".toList =
          '$' :: (pre ++ '*' :: post) ∧ '*' ∉ post ∧
        xorBytes pre = ((strtolHexVal post) % 256).toNat) ∧
    processLine (0, initGpsData)
      "$GPGGA,123519,4807.038,N,01131.000,E,1,08,0.9,545.4,M,46.9,M,,*46" =
      (0, initGpsData) ∧
    processLine (0, initGpsData) "$*100000000" = (0, initGpsData) :=
  ⟨checksum_contract_amended.1 _,
   checksum_contract_amended.2 (0, initGpsData) _ (by decide),
   checksum_contract_amended.2 (0, initGpsData) _ (by decide)⟩

/-- C1 (counterexample): the claimed consequence fails when the first fix's
latitude is exactly the 0.0 sentinel.  The run seeds the display with
latitude 0, so the next low-speed fix re-seeds it: after the two valid
fixes (lat 0, lon 5, speed 0, hdop 1) and (lat 7, lon 8, speed 0, hdop 1),
all satisfying the claim's premises, the display latitude is 7, not the
first fix's 0. -/
theorem antidrift_zero_sentinel_cex :
    ((⟨0, 5, 0, 1⟩ : FixInput).hdop ≤ MAX_HDOP_THRESHOLD ∧
      (∀ x ∈ [(⟨7, 8, 0, 1⟩ : FixInput)],
        x.hdop ≤ MAX_HDOP_THRESHOLD ∧ x.speed < MIN_SPEED_THRESHOLD)) ∧
    (runFixes [⟨0, 5, 0, 1⟩, ⟨7, 8, 0, 1⟩]).2.display_latitude ≠
      (⟨0, 5, 0, 1⟩ : FixInput).lat := by
  decide

/-- C1 (amended): on a valid fix with HDOP at most 3 and speed below 3 km/h,
a non-sentinel display position is left unchanged with `is_moving` false,
and a sentinel (0.0) display position is seeded from the raw position; over
a run of valid low-HDOP fixes whose speed stays below 3 km/h after the
first, the display stays at the first fix's position, provided that first
latitude is not the 0.0 sentinel itself. -/
theorem antidrift_latch_amended :
    (∀ (tr : Nat) (g : GpsData), g.fix_valid = true →
        g.hdop ≤ MAX_HDOP_THRESHOLD → g.speed_kph < MIN_SPEED_THRESHOLD →
        (g.display_latitude ≠ 0 →
          (apply_filtering_and_print tr g).2.display_latitude = g.display_latitude ∧
          (apply_filtering_and_print tr g).2.display_longitude = g.display_longitude ∧
          (apply_filtering_and_print tr g).2.is_moving = false) ∧
        (g.display_latitude = 0 →
          (apply_filtering_and_print tr g).2.display_latitude = g.raw_latitude ∧
          (apply_filtering_and_print tr g).2.display_longitude = g.raw_longitude ∧
          (apply_filtering_and_print tr g).2.is_moving = false)) ∧
    (∀ (f : FixInput) (rest : List FixInput),
        f.hdop ≤ MAX_HDOP_THRESHOLD → f.lat ≠ 0 →
        (∀ x ∈ rest, x.hdop ≤ MAX_HDOP_THRESHOLD ∧ x.speed < MIN_SPEED_THRESHOLD) →
        (runFixes (f :: rest)).2.display_latitude = f.lat ∧
        (runFixes (f :: rest)).2.display_longitude = f.lon) := by
  constructor
  · intro tr g hfix hh hs
    constructor
    · intro hd
      rw [apply_filtering_frozen tr g hfix hh hs hd]
      exact ⟨rfl, rfl, rfl⟩
    · intro hd0
      simp only [apply_filtering_and_print]
      rw [if_neg (by simp [hfix]), if_neg (not_lt.mpr hh), if_neg (not_le.mpr hs),
        if_pos hd0]
      exact ⟨rfl, rfl, rfl⟩
  · intro f rest hh hlat hall
    rw [runFixes, List.foldl_cons]
    have hseed := apply_filtering_seed 0
      { initGpsData with fix_valid := true, hdop := f.hdop, raw_latitude := f.lat,
                         raw_longitude := f.lon, speed_kph := f.speed }
      rfl hh rfl
    have hfroz := runFixes_frozen_aux rest (fixStep (0, initGpsData) f)
      (by rw [show (fixStep (0, initGpsData) f).2.display_latitude = f.lat from hseed.1]
          exact hlat)
      hall
    exact ⟨hfroz.1.trans hseed.1, hfroz.2.trans hseed.2⟩

/-- C1 (witness): a latched state keeps its display under a slow valid fix,
and the two-fix run starting at latitude 48 keeps the display at (48, 11)
while a second slow fix moves the raw position. -/
theorem antidrift_latch_amended_witness :
    ((apply_filtering_and_print 0 gFrozenSample).2.display_latitude =
        gFrozenSample.display_latitude ∧
      (apply_filtering_and_print 0 gFrozenSample).2.display_longitude =
        gFrozenSample.display_longitude ∧
      (apply_filtering_and_print 0 gFrozenSample).2.is_moving = false) ∧
    ((runFixes [⟨48, 11, 0, 1⟩, ⟨49, 12, 1, 1⟩]).2.display_latitude = 48 ∧
      (runFixes [⟨48, 11, 0, 1⟩, ⟨49, 12, 1, 1⟩]).2.display_longitude = 11) :=
  ⟨(antidrift_latch_amended.1 0 gFrozenSample rfl (by decide) (by decide)).1 (by decide),
   antidrift_latch_amended.2 ⟨48, 11, 0, 1⟩ [⟨49, 12, 1, 1⟩] (by decide) (by decide)
     (by decide)⟩

/-- C5 (code bug): `parse_gpgga` writes `gps_data.hdop` inside its tokenising
loop, before `spin_lock_blocking` is called, so the decoder's event trace
contains a shared-state write outside the critical section; a snapshot taken
between that write and the locked commit observes the new pass's HDOP (0.9)
paired with the previous pass's position (latitude 10). -/
theorem gpgga_hdop_unlocked_write :
    (∃ e ∈ gpggaEvents ggaSampleFields, e.locked = false ∧ e.fld = GField.hdopF) ∧
    (applyEvents gPrevPass
        ((gpggaEvents ggaSampleFields).takeWhile (fun e => !e.locked))).hdop =
      mkRat 9 10 ∧
    (applyEvents gPrevPass
        ((gpggaEvents ggaSampleFields).takeWhile (fun e => !e.locked))).raw_latitude =
      gPrevPass.raw_latitude := by
  decide

/-- C6: on a valid fix whose HDOP exceeds the 3.0 threshold, the filter
returns with the whole fix state unchanged (only the reading counter
advances): display coordinates and `is_moving` are untouched and the
anti-drift step never runs, whatever the speed. -/
theorem accuracy_gate_skips_antidrift (tr : Nat) (g : GpsData)
    (hfix : g.fix_valid = true) (hh : MAX_HDOP_THRESHOLD < g.hdop) :
    apply_filtering_and_print tr g = (tr + 1, g) := by
  simp only [apply_filtering_and_print]
  rw [if_neg (by simp [hfix]), if_pos hh]

/-- C6 (witness): a valid fix with HDOP 5 and speed 10 km/h leaves the state
unchanged. -/
theorem accuracy_gate_skips_antidrift_witness :
    apply_filtering_and_print 0 gPoorHdop = (1, gPoorHdop) :=
  accuracy_gate_skips_antidrift 0 gPoorHdop rfl (by decide)

/-- C2: after the position/quality decoder runs, `satellites` holds the
parsed count whatever the fix validity; `fix_valid` holds exactly when the
latitude field was non-empty and the satellite count positive; and when that
condition fails the raw position and altitude keep their previous values. -/
theorem gpgga_decode_contract (g : GpsData) (fs : List String) :
    (parse_gpgga g fs).satellites = gpggaSats fs ∧
    ((parse_gpgga g fs).fix_valid = true ↔
      (gpggaLatStr fs).length ≠ 0 ∧ 0 < gpggaSats fs) ∧
    (gpggaValid fs = false →
      (parse_gpgga g fs).raw_latitude = g.raw_latitude ∧
      (parse_gpgga g fs).raw_longitude = g.raw_longitude ∧
      (parse_gpgga g fs).altitude = g.altitude) := by
  by_cases hv : gpggaValid fs = true
  · have hv' := hv
    simp only [gpggaValid, Bool.and_eq_true, decide_eq_true_eq] at hv'
    by_cases h8 : 8 ≤ fs.length <;>
      simp [parse_gpgga, gpggaEvents, applyEvents, applyEvent, h8, hv,
        Nat.pos_iff_ne_zero.mp hv'.1, hv'.2]
  · have hvf : gpggaValid fs = false := by
      revert hv
      cases gpggaValid fs <;> simp
    have hv2 : ¬((gpggaLatStr fs).length ≠ 0 ∧ 0 < gpggaSats fs) := by
      rintro ⟨hne, hpos⟩
      have : gpggaValid fs = true := by
        simp [gpggaValid, Nat.pos_of_ne_zero hne, hpos]
      rw [this] at hvf
      exact Bool.noConfusion hvf
    by_cases h8 : 8 ≤ fs.length <;>
      simp [parse_gpgga, gpggaEvents, applyEvents, applyEvent, h8, hvf, hv2]

/-- C2 (witness): on the field list of a quality sentence with an empty
latitude field, the decoder reports the parsed satellite count, clears
`fix_valid`, and leaves position and altitude untouched. -/
theorem gpgga_decode_contract_witness :
    (parse_gpgga gPrevPass ["1", "", "N", "", "E", "1", "0"]).satellites =
      gpggaSats ["1", "", "N", "", "E", "1", "0"] ∧
    ((parse_gpgga gPrevPass ["1", "", "N", "", "E", "1", "0"]).fix_valid = true ↔
      (gpggaLatStr ["1", "", "N", "", "E", "1", "0"]).length ≠ 0 ∧
        0 < gpggaSats ["1", "", "N", "", "E", "1", "0"]) ∧
    ((parse_gpgga gPrevPass ["1", "", "N", "", "E", "1", "0"]).raw_latitude =
        gPrevPass.raw_latitude ∧
      (parse_gpgga gPrevPass ["1", "", "N", "", "E", "1", "0"]).raw_longitude =
        gPrevPass.raw_longitude ∧
      (parse_gpgga gPrevPass ["1", "", "N", "", "E", "1", "0"]).altitude =
        gPrevPass.altitude) :=
  ⟨(gpgga_decode_contract gPrevPass _).1,
   (gpgga_decode_contract gPrevPass _).2.1,
   (gpgga_decode_contract gPrevPass _).2.2 (by decide)⟩

/-- C7: the velocity/course decoder always writes `speed_kph` and `course`:
with an active status the speed is the knots field times 1.852 and the
course is the parsed course field (an empty field parses to 0); with any
other status both are written as exactly zero, never left stale. -/
theorem gprmc_speed_course_contract (g : GpsData) (fs : List String) :
    (parse_gprmc g fs).speed_kph =
      (if gprmcStatus fs = 'A' then atof (gprmcSpeedStr fs) * (1852 / 1000) else 0) ∧
    (parse_gprmc g fs).course =
      (if gprmcStatus fs = 'A' then atof (gprmcCourseStr fs) else 0) := by
  have hsp : (parse_gprmc g fs).speed_kph = gprmcSpeed fs := rfl
  have hco : (parse_gprmc g fs).course = gprmcCourse fs := rfl
  rw [hsp, hco]
  constructor
  · unfold gprmcSpeed
    by_cases hA : gprmcStatus fs = 'A'
    · rw [if_pos hA, if_pos hA]
      by_cases hl : 0 < (gprmcSpeedStr fs).length
      · rw [if_pos hl]
      · rw [if_neg hl]
        rw [eq_empty_of_length_eq_zero (gprmcSpeedStr fs) (by omega), atof_empty,
          zero_mul]
    · rw [if_neg hA, if_neg hA]
  · unfold gprmcCourse
    by_cases hA : gprmcStatus fs = 'A'
    · rw [if_pos hA, if_pos hA]
      by_cases hl : 0 < (gprmcCourseStr fs).length
      · rw [if_pos hl]
      · rw [if_neg hl]
        rw [eq_empty_of_length_eq_zero (gprmcCourseStr fs) (by omega), atof_empty]
    · rw [if_neg hA, if_neg hA]

/-- C8: `nmea_to_decimal` converts "4807.038"/N to exactly 48.1173, converts
"01131.000"/E to 11.5167 within 1e-4, and a South or West hemisphere flag
negates the corresponding North/East result. -/
theorem nmea_coordinate_conversion :
    nmea_to_decimal "4807.038" 'N' = 481173 / 10000 ∧
    |nmea_to_decimal "01131.000" 'E' - 115167 / 10000| ≤ 1 / 10000 ∧
    (∀ s : String, nmea_to_decimal s 'S' = -nmea_to_decimal s 'N') ∧
    (∀ s : String, nmea_to_decimal s 'W' = -nmea_to_decimal s 'E') := by
  have ha : atof "4807.038" = (4807038 : ℚ) / 1000 := by
    rw [show atof "4807.038" = mkRat 4807038 1000 from rfl, Rat.mkRat_eq_div]
    norm_num
  have hb : atof "01131.000" = (1131000 : ℚ) / 1000 := by
    rw [show atof "01131.000" = mkRat 1131000 1000 from rfl, Rat.mkRat_eq_div]
    norm_num
  refine ⟨?_, ?_, ?_, ?_⟩
  · simp only [nmea_to_decimal]
    rw [if_neg (by decide), ha, if_neg (by decide)]
    norm_num [ratTrunc]
  · simp only [nmea_to_decimal]
    rw [if_neg (by decide), hb, if_neg (by decide)]
    norm_num [ratTrunc]
    rw [abs_le]
    norm_num
  · intro s
    by_cases h : s.length = 0 <;> simp [nmea_to_decimal, h]
  · intro s
    by_cases h : s.length = 0 <;> simp [nmea_to_decimal, h]

/-- C10: the telemetry packet's position fields are filled from the raw
coordinates, not the filtered display coordinates; in a run where the
display stays latched while the raw position moves, consecutive packets
carry different latitudes even though the display has not changed. -/
theorem telemetry_uses_raw_position :
    (∀ (gps : GpsData) (txc : Nat),
      (buildTelemetryPacket gps txc).latitude = gps.raw_latitude ∧
      (buildTelemetryPacket gps txc).longitude = gps.raw_longitude) ∧
    ((fixStep (runFixes [⟨48, 11, 5, 1⟩]) ⟨49, 12, 1, 1⟩).2.display_latitude =
        (runFixes [⟨48, 11, 5, 1⟩]).2.display_latitude ∧
      (buildTelemetryPacket (fixStep (runFixes [⟨48, 11, 5, 1⟩]) ⟨49, 12, 1, 1⟩).2 1).latitude ≠
        (buildTelemetryPacket (runFixes [⟨48, 11, 5, 1⟩]).2 0).latitude) :=
  ⟨fun _ _ => ⟨rfl, rfl⟩, by decide⟩

/-- C4: for every packet content in range, the encoding is exactly 24 bytes
with the fields at byte offsets 0, 4, 8, 12, 16, 20, 22 and 23 (no
padding), and re-decoding those bytes reproduces every field value,
including the magic constant 0x46533236 in bytes 0-3. -/
theorem telemetry_packet_layout (f32 : ℚ → Nat) (p : gps_telemetry_packet_t)
    (hf : ∀ q, f32 q < 2 ^ 32) (hm : p.magic = 0x46533236)
    (ht : p.tx_count < 2 ^ 16) (hs : p.satellites < 2 ^ 8) (hv : p.fix_valid < 2) :
    (encodeTelemetryPacket f32 p).length = 24 ∧
    decodeTelemetryPacket (encodeTelemetryPacket f32 p) =
      some (p.magic, f32 p.latitude, f32 p.longitude, f32 p.speed_kph,
            f32 p.altitude, p.tx_count, p.satellites, p.fix_valid) := by
  have h1 := hf p.latitude
  have h2 := hf p.longitude
  have h3 := hf p.speed_kph
  have h4 := hf p.altitude
  constructor
  · simp [encodeTelemetryPacket, le32, le16]
  · simp only [encodeTelemetryPacket, le32, le16, List.cons_append, List.nil_append,
      decodeTelemetryPacket, Option.some.injEq, Prod.mk.injEq]
    refine ⟨?_, ?_, ?_, ?_, ?_, ?_, ?_, ?_⟩ <;> omega

/-- C4 (witness): the spec's sample packet content (tx_count 7, 9
satellites, valid fix) encodes to 24 bytes and decodes back to itself. -/
theorem telemetry_packet_layout_witness :
    (encodeTelemetryPacket (fun _ => 0) pSample).length = 24 ∧
    decodeTelemetryPacket (encodeTelemetryPacket (fun _ => 0) pSample) =
      some (pSample.magic, 0, 0, 0, 0, pSample.tx_count, pSample.satellites,
            pSample.fix_valid) :=
  telemetry_packet_layout (fun _ => 0) pSample (fun _ => by norm_num) rfl
    (by norm_num [pSample]) (by norm_num [pSample]) (by norm_num [pSample])

theorem txWaitLoop_timeout (env : RadioEnv)
    (hflag : ∀ t, env.txDoneFlagAt t = false)
    (hirq : ∀ t, env.irqStatusAt t &&& IRQ_TX_DONE = 0) :
    ∀ n e, e + n = 2001 → txWaitLoop env e = (false, timeoutTrace n) := by
  intro n
  induction n with
  | zero =>
    intro e he
    rw [txWaitLoop]
    rw [if_neg (by simp [hflag e]), if_neg (by simp [hirq e]),
      if_pos (show 2000 < e by omega)]
    rfl
  | succ k ih =>
    intro e he
    rw [txWaitLoop]
    rw [if_neg (by simp [hflag e]), if_neg (by simp [hirq e]),
      if_neg (show ¬ 2000 < e by omega)]
    rw [ih (e + 1) (by omega)]
    rfl

theorem timeoutTrace_count_sleep (n : Nat) :
    (timeoutTrace n).count (RCmd.sleepMs 1) = n := by
  induction n with
  | zero => rfl
  | succ k ih => simp [timeoutTrace, List.count_cons, ih]

theorem timeoutTrace_count_setTx (n : Nat) :
    (timeoutTrace n).count RCmd.setTx = 0 := by
  induction n with
  | zero => rfl
  | succ k ih => simp [timeoutTrace, List.count_cons, ih]

theorem timeoutTrace_ends (n : Nat) :
    ∃ tr, timeoutTrace n = tr ++ [RCmd.clearErrors, RCmd.clearIrqAll] := by
  induction n with
  | zero => exact ⟨[RCmd.getIrqStatus], rfl⟩
  | succ k ih =>
    obtain ⟨tr, htr⟩ := ih
    exact ⟨RCmd.getIrqStatus :: RCmd.sleepMs 1 :: tr, by simp [timeoutTrace, htr]⟩

/-- C9: against a radio whose completion interrupt never fires and whose
polled status never shows TX_DONE, `lora_send` returns false only after the
2000 ms timeout has elapsed (2001 one-millisecond polling sleeps), its last
radio commands before returning clear the error state and all interrupt
flags, and it issues the transmit-start command exactly once (no internal
retry). -/
theorem lora_send_timeout_behavior (env : RadioEnv) (length payloadLength : Nat)
    (hlen : length ≤ payloadLength)
    (hwb : env.writeBufferOk = true) (hst : env.setTxOk = true)
    (hflag : ∀ t, env.txDoneFlagAt t = false)
    (hirq : ∀ t, env.irqStatusAt t &&& IRQ_TX_DONE = 0) :
    (lora_send env length payloadLength).1 = false ∧
    (lora_send env length payloadLength).2.count (RCmd.sleepMs 1) = 2001 ∧
    (∃ tr, (lora_send env length payloadLength).2 =
      tr ++ [RCmd.clearErrors, RCmd.clearIrqAll]) ∧
    (lora_send env length payloadLength).2.count RCmd.setTx = 1 := by
  have hwl := txWaitLoop_timeout env hflag hirq 2001 0 rfl
  have hnl : ¬ payloadLength < length := by omega
  have hsend : lora_send env length payloadLength =
      (false, ([RCmd.clearErrors, RCmd.clearIrqAll, RCmd.setTcxoMode, RCmd.sleepMs 5,
        RCmd.clearErrors, RCmd.setPktType, RCmd.setRfFreq, RCmd.setLoraModParams,
        RCmd.setLoraPktParams, RCmd.writeBuffer] ++ [RCmd.getErrors] ++
        (if env.preTxErrors ≠ 0 then [RCmd.clearErrors] else []) ++ [RCmd.setTx]) ++
        timeoutTrace 2001) := by
    simp only [lora_send]
    rw [if_neg hnl, if_neg (by simp [hwb]), if_neg (by simp [hst]), hwl]
  rw [hsend]
  refine ⟨rfl, ?_, ?_, ?_⟩
  · by_cases hp : env.preTxErrors ≠ 0
    · rw [if_pos hp, List.count_append, timeoutTrace_count_sleep,
        show List.count (RCmd.sleepMs 1)
          ([RCmd.clearErrors, RCmd.clearIrqAll, RCmd.setTcxoMode, RCmd.sleepMs 5,
            RCmd.clearErrors, RCmd.setPktType, RCmd.setRfFreq, RCmd.setLoraModParams,
            RCmd.setLoraPktParams, RCmd.writeBuffer] ++ [RCmd.getErrors] ++
            [RCmd.clearErrors] ++ [RCmd.setTx]) = 0 from by decide]
    · rw [if_neg hp, List.count_append, timeoutTrace_count_sleep,
        show List.count (RCmd.sleepMs 1)
          ([RCmd.clearErrors, RCmd.clearIrqAll, RCmd.setTcxoMode, RCmd.sleepMs 5,
            RCmd.clearErrors, RCmd.setPktType, RCmd.setRfFreq, RCmd.setLoraModParams,
            RCmd.setLoraPktParams, RCmd.writeBuffer] ++ [RCmd.getErrors] ++
            [] ++ [RCmd.setTx]) = 0 from by decide]
  · obtain ⟨tr, htr⟩ := timeoutTrace_ends 2001
    refine ⟨([RCmd.clearErrors, RCmd.clearIrqAll, RCmd.setTcxoMode, RCmd.sleepMs 5,
        RCmd.clearErrors, RCmd.setPktType, RCmd.setRfFreq, RCmd.setLoraModParams,
        RCmd.setLoraPktParams, RCmd.writeBuffer] ++ [RCmd.getErrors] ++
        (if env.preTxErrors ≠ 0 then [RCmd.clearErrors] else []) ++ [RCmd.setTx]) ++
        tr, ?_⟩
    rw [htr]
    simp [List.append_assoc]
  · by_cases hp : env.preTxErrors ≠ 0
    · rw [if_pos hp, List.count_append, timeoutTrace_count_setTx,
        show List.count RCmd.setTx
          ([RCmd.clearErrors, RCmd.clearIrqAll, RCmd.setTcxoMode, RCmd.sleepMs 5,
            RCmd.clearErrors, RCmd.setPktType, RCmd.setRfFreq, RCmd.setLoraModParams,
            RCmd.setLoraPktParams, RCmd.writeBuffer] ++ [RCmd.getErrors] ++
            [RCmd.clearErrors] ++ [RCmd.setTx]) = 1 from by decide]
    · rw [if_neg hp, List.count_append, timeoutTrace_count_setTx,
        show List.count RCmd.setTx
          ([RCmd.clearErrors, RCmd.clearIrqAll, RCmd.setTcxoMode, RCmd.sleepMs 5,
            RCmd.clearErrors, RCmd.setPktType, RCmd.setRfFreq, RCmd.setLoraModParams,
            RCmd.setLoraPktParams, RCmd.writeBuffer] ++ [RCmd.getErrors] ++
            [] ++ [RCmd.setTx]) = 1 from by decide]

/-- C9 (witness): sending a 24-byte payload with a 255-byte payload limit
against the silent radio returns false after 2001 polling sleeps, ends by
clearing errors and interrupts, and starts transmission exactly once. -/
theorem lora_send_timeout_behavior_witness :
    (lora_send envSilent 24 255).1 = false ∧
    (lora_send envSilent 24 255).2.count (RCmd.sleepMs 1) = 2001 ∧
    (∃ tr, (lora_send envSilent 24 255).2 =
      tr ++ [RCmd.clearErrors, RCmd.clearIrqAll]) ∧
    (lora_send envSilent 24 255).2.count RCmd.setTx = 1 :=
  lora_send_timeout_behavior envSilent 24 255 (by norm_num) rfl rfl
    (fun _ => rfl) (fun _ => by show (0 : Nat) &&& IRQ_TX_DONE = 0; decide)

end FS26
